import Mathlib

/-!
Verification development for the habitat identity/authentication client
(`src/components/net/src/oauth/github.rs`) and the local-system-info probe
(`src/src/bldr/util/sys.rs`).

The Rust code is shallowly embedded: JSON bodies are modelled by an explicit
`Json` value type, the derived `RustcDecodable` decoders by structural
decoders over `Json`, HTTP responses by a status number plus a decoded body,
and each fallible Rust function by a Lean function returning `Except`.
Request sending itself (the hyper transport) is abstracted away: each
embedded operation is given the response the transport produced, exactly as
the Rust code is once `http_post`/`http_get` return.
-/

/-- A parsed JSON value, as produced by `rustc_serialize::json` before the
typed decode step.  Objects are association lists of field name / value. -/
inductive Json where
  | null
  | bool (b : Bool)
  | num (n : Int)
  | str (s : String)
  | arr (elems : List Json)
  | obj (fields : List (String × Json))
deriving Repr

/-- Field lookup in a JSON object, as `rustc_serialize`'s
`read_struct_field` does it: a missing field is read as `Json.null`. -/
def Json.find (fields : List (String × Json)) (name : String) : Json :=
  match fields with
  | [] => Json.null
  | (k, v) :: rest => if k = name then v else Json.find rest name

/-- Decode a JSON value as a Rust `String` (`read_str`): only a JSON string
succeeds. -/
def decodeString : Json → Option String
  | Json.str s => some s
  | _ => none

/-- Decode a JSON value as an unsigned integer (`u64`/`u32` in the source):
only a non-negative JSON number succeeds. -/
def decodeNat : Json → Option Nat
  | Json.num n => if 0 ≤ n then some n.toNat else none
  | _ => none

/-- Decode a JSON value as a `bool`. -/
def decodeBool : Json → Option Bool
  | Json.bool b => some b
  | _ => none

/-- Decode a JSON value as `Option<String>` (`read_option`): `null` (also a
missing field) decodes to `none`, a string to `some`. -/
def decodeOptString : Json → Option (Option String)
  | Json.null => some none
  | Json.str s => some (some s)
  | _ => none

/-- Decode a JSON value as `Option<bool>`. -/
def decodeOptBool : Json → Option (Option Bool)
  | Json.null => some none
  | Json.bool b => some (some b)
  | _ => none

/-- Decode a JSON value as `HashMap<String, String>` (`read_map`): the value
must be an object and every field value must be a string.  The map is
represented as the association list of its entries. -/
def decodeStringMap : Json → Option (List (String × String))
  | Json.obj fields =>
      fields.foldr
        (fun kv acc =>
          match acc with
          | none => none
          | some rest =>
              match decodeString kv.2 with
              | some v => some ((kv.1, v) :: rest)
              | none => none)
        (some [])
  | _ => none

namespace GitHub

/-- `GitHubClient` (github.rs:31): the provider base URL and the OAuth
credentials, supplied at construction. -/
structure GitHubClient where
  url : String
  client_id : String
  client_secret : String
deriving Repr

/-- `AuthOk` (github.rs:155): the granted-token body of the token
exchange. -/
structure AuthOk where
  access_token : String
  scope : String
  token_type : String
deriving Repr

/-- `AuthErr` (github.rs:168): the structured error body of the token
exchange. -/
structure AuthErr where
  error : String
  error_description : String
  error_uri : String
deriving Repr

/-- `Email` (github.rs:149). -/
structure Email where
  email : String
  primary : Bool
  verified : Bool
deriving Repr

/-- `User` (github.rs:102): the profile resource, with every field of the
Rust struct. -/
structure User where
  login : String
  id : Nat
  avatar_url : String
  gravatar_id : String
  url : String
  html_url : String
  followers_url : String
  following_url : String
  gists_url : String
  starred_url : String
  subscriptions_url : String
  organizations_url : String
  repos_url : String
  events_url : String
  received_events_url : String
  site_admin : Bool
  name : Option String
  company : Option String
  blog : Option String
  location : Option String
  email : Option String
  hireable : Option Bool
  bio : Option String
  public_repos : Nat
  public_gists : Nat
  followers : Nat
  following : Nat
  created_at : String
  updated_at : String
deriving Repr

/-- The net component's local error taxonomy (`Error` in the component's
error module, which is not part of the sources here).  The variants used by
github.rs are modelled; `AuthProviderError` is the variant produced by
`Error::from(AuthErr)` and `DecodeError` the one produced by
`From<json::DecoderError>`, per the spec's error taxonomy.  Modelled from
the spec for those two conversions; `HTTP`, `MissingScope` and `GitHubAPI`
are named in github.rs itself. -/
inductive Error where
  | HTTP (status : Nat)
  | MissingScope (scope : String)
  | AuthProviderError (err : AuthErr)
  | GitHubAPI (map : List (String × String))
  | DecodeError
deriving Repr

/-- An HTTP response as the client sees it: the numeric status code and the
parsed JSON body. -/
structure Response where
  status : Nat
  body : Json
deriving Repr

/-- hyper's `StatusCode::is_success`: the 2xx class. -/
def isSuccess (status : Nat) : Bool :=
  200 ≤ status && status < 300

/-- Split a character list at every comma, embedding Rust's
`str::split(",")` for this single-character separator. -/
def splitComma : List Char → List (List Char)
  | [] => [[]]
  | c :: cs =>
      match splitComma cs with
      | [] => [[]]
      | first :: rest =>
          if c = ',' then [] :: first :: rest
          else (c :: first) :: rest

/-- `AuthOk::has_scope` (github.rs:163): split the granted scope string on
commas and test whether any piece equals the grant exactly. -/
def AuthOk.has_scope (msg : AuthOk) (grant : String) : Bool :=
  (splitComma msg.scope.data).any (fun p => p == grant.data)

/-- The derived `RustcDecodable` decoder for `AuthOk`: an object whose
`access_token`, `scope` and `token_type` fields are strings. -/
def decodeAuthOk : Json → Option AuthOk
  | Json.obj fields => do
      let access_token ← decodeString (Json.find fields "access_token")
      let scope ← decodeString (Json.find fields "scope")
      let token_type ← decodeString (Json.find fields "token_type")
      some { access_token := access_token, scope := scope, token_type := token_type }
  | _ => none

/-- The derived `RustcDecodable` decoder for `AuthErr`. -/
def decodeAuthErr : Json → Option AuthErr
  | Json.obj fields => do
      let error ← decodeString (Json.find fields "error")
      let error_description ← decodeString (Json.find fields "error_description")
      let error_uri ← decodeString (Json.find fields "error_uri")
      some { error := error, error_description := error_description, error_uri := error_uri }
  | _ => none

/-- The derived `RustcDecodable` decoder for `Email`. -/
def decodeEmail : Json → Option Email
  | Json.obj fields => do
      let email ← decodeString (Json.find fields "email")
      let primary ← decodeBool (Json.find fields "primary")
      let verified ← decodeBool (Json.find fields "verified")
      some { email := email, primary := primary, verified := verified }
  | _ => none

/-- Decoder for `Vec<Email>`: a JSON array each of whose elements decodes as
an `Email`. -/
def decodeEmails : Json → Option (List Email)
  | Json.arr elems =>
      elems.foldr
        (fun j acc => do
          let e ← decodeEmail j
          let rest ← acc
          some (e :: rest))
        (some [])
  | _ => none

/-- Field group 1 of the derived `User` decoder: `login` through
`html_url`, in struct order.  (The decode of the 29-field struct is split
into groups purely to keep the compiled code small; the groups concatenate
to exactly the derived field-by-field decode.) -/
def decodeUserA (fields : List (String × Json)) :
    Option (String × Nat × String × String × String × String) := do
  let login ← decodeString (Json.find fields "login")
  let id ← decodeNat (Json.find fields "id")
  let avatar_url ← decodeString (Json.find fields "avatar_url")
  let gravatar_id ← decodeString (Json.find fields "gravatar_id")
  let url ← decodeString (Json.find fields "url")
  let html_url ← decodeString (Json.find fields "html_url")
  some (login, id, avatar_url, gravatar_id, url, html_url)

/-- Field group 2 of the derived `User` decoder: `followers_url` through
`organizations_url`. -/
def decodeUserB (fields : List (String × Json)) :
    Option (String × String × String × String × String × String) := do
  let followers_url ← decodeString (Json.find fields "followers_url")
  let following_url ← decodeString (Json.find fields "following_url")
  let gists_url ← decodeString (Json.find fields "gists_url")
  let starred_url ← decodeString (Json.find fields "starred_url")
  let subscriptions_url ← decodeString (Json.find fields "subscriptions_url")
  let organizations_url ← decodeString (Json.find fields "organizations_url")
  some (followers_url, following_url, gists_url, starred_url,
        subscriptions_url, organizations_url)

/-- Field group 3 of the derived `User` decoder: `repos_url` through
`site_admin`. -/
def decodeUserC (fields : List (String × Json)) :
    Option (String × String × String × Bool) := do
  let repos_url ← decodeString (Json.find fields "repos_url")
  let events_url ← decodeString (Json.find fields "events_url")
  let received_events_url ← decodeString (Json.find fields "received_events_url")
  let site_admin ← decodeBool (Json.find fields "site_admin")
  some (repos_url, events_url, received_events_url, site_admin)

/-- Field group 4 of the derived `User` decoder: the optional fields `name`
through `bio`. -/
def decodeUserD (fields : List (String × Json)) :
    Option (Option String × Option String × Option String × Option String ×
      Option String × Option Bool × Option String) := do
  let name ← decodeOptString (Json.find fields "name")
  let company ← decodeOptString (Json.find fields "company")
  let blog ← decodeOptString (Json.find fields "blog")
  let location ← decodeOptString (Json.find fields "location")
  let email ← decodeOptString (Json.find fields "email")
  let hireable ← decodeOptBool (Json.find fields "hireable")
  let bio ← decodeOptString (Json.find fields "bio")
  some (name, company, blog, location, email, hireable, bio)

/-- Field group 5 of the derived `User` decoder: `public_repos` through
`updated_at`. -/
def decodeUserE (fields : List (String × Json)) :
    Option (Nat × Nat × Nat × Nat × String × String) := do
  let public_repos ← decodeNat (Json.find fields "public_repos")
  let public_gists ← decodeNat (Json.find fields "public_gists")
  let followers ← decodeNat (Json.find fields "followers")
  let following ← decodeNat (Json.find fields "following")
  let created_at ← decodeString (Json.find fields "created_at")
  let updated_at ← decodeString (Json.find fields "updated_at")
  some (public_repos, public_gists, followers, following, created_at,
        updated_at)

/-- The derived `RustcDecodable` decoder for `User`: every field of the
struct in declaration order, optional fields reading a missing entry as
`None`. -/
def decodeUser : Json → Option User
  | Json.obj fields => do
      let (login, id, avatar_url, gravatar_id, url, html_url) ←
        decodeUserA fields
      let (followers_url, following_url, gists_url, starred_url,
           subscriptions_url, organizations_url) ← decodeUserB fields
      let (repos_url, events_url, received_events_url, site_admin) ←
        decodeUserC fields
      let (name, company, blog, location, email, hireable, bio) ←
        decodeUserD fields
      let (public_repos, public_gists, followers, following, created_at,
           updated_at) ← decodeUserE fields
      some { login := login, id := id, avatar_url := avatar_url,
             gravatar_id := gravatar_id, url := url, html_url := html_url,
             followers_url := followers_url, following_url := following_url,
             gists_url := gists_url, starred_url := starred_url,
             subscriptions_url := subscriptions_url,
             organizations_url := organizations_url, repos_url := repos_url,
             events_url := events_url,
             received_events_url := received_events_url,
             site_admin := site_admin, name := name, company := company,
             blog := blog, location := location, email := email,
             hireable := hireable, bio := bio, public_repos := public_repos,
             public_gists := public_gists, followers := followers,
             following := following, created_at := created_at,
             updated_at := updated_at }
  | _ => none

/-- HTTP request methods used by the client. -/
inductive Method where
  | GET
  | POST
deriving Repr, DecidableEq

/-- An outbound HTTP request: method and URL string (headers are fixed by
`http_post`/`http_get` and not modelled). -/
structure Request where
  method : Method
  url : String
deriving Repr, DecidableEq

/-- The token-exchange request built by `GitHubClient::authenticate`
(github.rs:46-54): a POST whose URL is the literal
`https://github.com/login/oauth/access_token` (the Rust string continuation
`github.\com` joins to `github.com`) with `client_id`, `client_secret` and
`code` query parameters interpolated. -/
def tokenExchangeRequest (c : GitHubClient) (code : String) : Request :=
  { method := Method.POST,
    url := "https://github.com/login/oauth/access_token?client_id=" ++
      c.client_id ++ "&client_secret=" ++ c.client_secret ++ "&code=" ++
      code }

/-- Written from the SPEC (section 6), for comparison with
`tokenExchangeRequest`: a POST to
`{base_url}/login/oauth/access_token?client_id=&client_secret=&code=`,
with `base_url` the client's configured provider base URL. -/
def specTokenExchangeRequest (c : GitHubClient) (code : String) : Request :=
  { method := Method.POST,
    url := c.url ++ "/login/oauth/access_token?client_id=" ++
      c.client_id ++ "&client_secret=" ++ c.client_secret ++ "&code=" ++
      code }

/-- The required OAuth scope: `"user:email"` (github.rs:60). -/
def requiredScope : String := "user:email"

/-- The response-classification phase of `GitHubClient::authenticate`
(github.rs:55-74), given the token-exchange response.  On a 2xx status the
body is decoded as `AuthOk`; a decoded grant either yields its access token
(required scope present) or `MissingScope`; a body that is not an `AuthOk`
is re-decoded as `AuthErr`, giving `AuthProviderError` on success and
`DecodeError` (the `try!`-propagated json decode failure) otherwise.  A
non-2xx status yields `HTTP` without touching the body. -/
def authenticate (rep : Response) : Except Error String :=
  if isSuccess rep.status then
    match decodeAuthOk rep.body with
    | some msg =>
        if msg.has_scope requiredScope then
          Except.ok msg.access_token
        else
          Except.error (Error.MissingScope requiredScope)
    | none =>
        match decodeAuthErr rep.body with
        | some err => Except.error (Error.AuthProviderError err)
        | none => Except.error Error.DecodeError
  else
    Except.error (Error.HTTP rep.status)

/-- The result of running `GitHubClient::user`, which unlike the other
operations can terminate the process: `panicked` models the `.unwrap()` on
the `User` decode at github.rs:86. -/
inductive UserResult where
  | ok (u : User)
  | err (e : Error)
  | panicked
deriving Repr

/-- The response-handling phase of `GitHubClient::user` (github.rs:77-88).
On a status other than 200 the body is decoded as a string map, giving
`GitHubAPI` on success and `DecodeError` (`try!`-propagated) on failure.
On 200 the body is decoded as `User` and the result unwrapped: a decode
failure is a crash, not an error return. -/
def user (rep : Response) : UserResult :=
  if rep.status ≠ 200 then
    match decodeStringMap rep.body with
    | some err => UserResult.err (Error.GitHubAPI err)
    | none => UserResult.err Error.DecodeError
  else
    match decodeUser rep.body with
    | some u => UserResult.ok u
    | none => UserResult.panicked

/-- The response-handling phase of `GitHubClient::emails` (github.rs:90-101).
On a status other than 200 the body is decoded as a string map, giving
`GitHubAPI` or `DecodeError` exactly as in `user`; on 200 the body is
decoded as `Vec<Email>` with `try!`, so a decode failure is `DecodeError`. -/
def emails (rep : Response) : Except Error (List Email) :=
  if rep.status ≠ 200 then
    match decodeStringMap rep.body with
    | some err => Except.error (Error.GitHubAPI err)
    | none => Except.error Error.DecodeError
  else
    match decodeEmails rep.body with
    | some es => Except.ok es
    | none => Except.error Error.DecodeError

/-- Modelled from the spec: the downstream account record
(`protocol::sessionsrv::Account`, whose definition is not among the
sources).  Per the spec the conversion copies `login` into the account's
name and, if present, `email` into the account's email; the record starts
with both unset (`Account::new`). -/
structure Account where
  name : String
  email : Option String
deriving Repr, DecidableEq

/-- `sessionsrv::Account::new`: a fresh record with no field set. -/
def Account.new : Account :=
  { name := "", email := none }

/-- `Account::set_name`. -/
def Account.set_name (a : Account) (name : String) : Account :=
  { a with name := name }

/-- `Account::set_email`. -/
def Account.set_email (a : Account) (email : String) : Account :=
  { a with email := some email }

/-- `From<User> for sessionsrv::Account` (github.rs:137-146): start from
`Account::new`, set the name to the user's login, and set the email exactly
when the user's email is present. -/
def accountFromUser (u : User) : Account :=
  let account := Account.new
  let account := account.set_name u.login
  match u.email with
  | some email => account.set_email email
  | none => account

end GitHub

namespace Sys

/-- The outcome of a finished shell command, as `std::process::Output` is
used by sys.rs: the exit status collapsed to `status.success()`, and the
raw stdout bytes. -/
structure Output where
  success : Bool
  stdout : List Nat
deriving Repr, DecidableEq

/-- The bldr error taxonomy variants reachable from sys.rs (`BldrError` is
defined in the error module, not among the sources; `IPFailed` is named at
sys.rs:37 and sys.rs:57).  `Utf8Error` models the `try!`-propagated
`String::from_utf8` failure. -/
inductive BldrError where
  | IPFailed
  | Utf8Error
deriving Repr, DecidableEq

/-- The shell command run by `ip` (sys.rs:26). -/
def ipCommand : String :=
  "ip route get 8.8.8.8 | awk \x27\x7bprintf \"%s\", $NF; exit\x7d\x27"

/-- The shell command run by `hostname` (sys.rs:45). -/
def hostnameCommand : String :=
  "hostname | awk \x27\x7bprintf \"%s\", $NF; exit\x7d\x27"

/-- `String::from_utf8` on a byte list: the list of decoded scalar values,
or `none` when the bytes are not valid UTF-8 (truncated or malformed
sequences, overlong encodings, surrogates and values above U+10FFFF are
rejected, as Rust does). -/
def utf8Decode : List Nat → Option (List Nat)
  | [] => some []
  | b0 :: rest =>
      if b0 < 0x80 then
        match utf8Decode rest with
        | some cps => some (b0 :: cps)
        | none => none
      else if b0 < 0xC2 then
        none
      else if b0 < 0xE0 then
        match rest with
        | b1 :: rest1 =>
            if 0x80 ≤ b1 ∧ b1 < 0xC0 then
              match utf8Decode rest1 with
              | some cps => some (((b0 - 0xC0) * 0x40 + (b1 - 0x80)) :: cps)
              | none => none
            else none
        | _ => none
      else if b0 < 0xF0 then
        match rest with
        | b1 :: b2 :: rest2 =>
            if (0x80 ≤ b1 ∧ b1 < 0xC0) ∧ (0x80 ≤ b2 ∧ b2 < 0xC0) then
              let cp := (b0 - 0xE0) * 0x1000 + (b1 - 0x80) * 0x40 + (b2 - 0x80)
              if 0x800 ≤ cp ∧ ¬ (0xD800 ≤ cp ∧ cp ≤ 0xDFFF) then
                match utf8Decode rest2 with
                | some cps => some (cp :: cps)
                | none => none
              else none
            else none
        | _ => none
      else if b0 < 0xF5 then
        match rest with
        | b1 :: b2 :: b3 :: rest3 =>
            if (0x80 ≤ b1 ∧ b1 < 0xC0) ∧ (0x80 ≤ b2 ∧ b2 < 0xC0) ∧
                (0x80 ≤ b3 ∧ b3 < 0xC0) then
              let cp := (b0 - 0xF0) * 0x40000 + (b1 - 0x80) * 0x1000 +
                (b2 - 0x80) * 0x40 + (b3 - 0x80)
              if 0x10000 ≤ cp ∧ cp ≤ 0x10FFFF then
                match utf8Decode rest3 with
                | some cps => some (cp :: cps)
                | none => none
              else none
            else none
        | _ => none
      else
        none

/-- `sys::ip` (sys.rs:23-40), given the finished command's output: on exit
success the stdout bytes are converted with `String::from_utf8` (`try!`),
on exit failure the result is `Err(BldrError::IPFailed)`. -/
def ip (output : Output) : Except BldrError (List Nat) :=
  if output.success then
    match utf8Decode output.stdout with
    | some s => Except.ok s
    | none => Except.error BldrError.Utf8Error
  else
    Except.error BldrError.IPFailed

/-- `sys::hostname` (sys.rs:42-59), given the finished command's output:
the same shape as `ip`, including `Err(BldrError::IPFailed)` on exit
failure. -/
def hostname (output : Output) : Except BldrError (List Nat) :=
  if output.success then
    match utf8Decode output.stdout with
    | some s => Except.ok s
    | none => Except.error BldrError.Utf8Error
  else
    Except.error BldrError.IPFailed

end Sys

namespace GitHub

/-- C1: for every token-exchange response, `authenticate` returns an access
token only when the required scope `"user:email"` is an exact token of the
comma-split scope list of the decoded grant; when the scope is absent it
fails with `MissingScope "user:email"` and the access token is never
returned, however many other scopes the list contains. -/
theorem authenticate_requires_scope :
    (∀ (rep : Response) (t : String), authenticate rep = Except.ok t →
      ∃ msg : AuthOk, decodeAuthOk rep.body = some msg ∧
        msg.has_scope "user:email" = true ∧ t = msg.access_token) ∧
    (∀ (rep : Response) (msg : AuthOk), isSuccess rep.status = true →
      decodeAuthOk rep.body = some msg →
      msg.has_scope "user:email" = false →
      authenticate rep = Except.error (Error.MissingScope "user:email")) := by
  constructor
  · intro rep t h
    by_cases hs : isSuccess rep.status = true
    · cases hd : decodeAuthOk rep.body with
      | some msg =>
          simp [authenticate, hs, hd, requiredScope] at h
          by_cases hsc : msg.has_scope "user:email" = true
          · simp [hsc] at h
            exact ⟨msg, rfl, hsc, h.symm⟩
          · simp [hsc] at h
      | none =>
          cases he : decodeAuthErr rep.body <;>
            simp [authenticate, hs, hd, he] at h
    · simp [authenticate, hs] at h
  · intro rep msg hs hd hsc
    simp [authenticate, hs, hd, hsc, requiredScope]

/-- Witness for C1: scenario A returns exactly `"abc"`, and a grant whose
scopes are `"repo,gist"` fails with `MissingScope "user:email"`. -/
theorem authenticate_requires_scope_witness :
    (∃ msg : AuthOk,
      decodeAuthOk (Json.obj [("access_token", Json.str "abc"),
        ("scope", Json.str "user:email"),
        ("token_type", Json.str "bearer")]) = some msg ∧
      msg.has_scope "user:email" = true ∧ "abc" = msg.access_token) ∧
    authenticate ⟨200, Json.obj [("access_token", Json.str "abc"),
      ("scope", Json.str "repo,gist"),
      ("token_type", Json.str "bearer")]⟩ =
      Except.error (Error.MissingScope "user:email") :=
  ⟨authenticate_requires_scope.1
      ⟨200, Json.obj [("access_token", Json.str "abc"),
        ("scope", Json.str "user:email"),
        ("token_type", Json.str "bearer")]⟩ "abc" (by rfl),
   authenticate_requires_scope.2
      ⟨200, Json.obj [("access_token", Json.str "abc"),
        ("scope", Json.str "repo,gist"),
        ("token_type", Json.str "bearer")]⟩
      ⟨"abc", "repo,gist", "bearer"⟩ (by decide) (by rfl) (by decide)⟩

end GitHub

namespace GitHub

/-- C2 (code bug): at OK status with a body that does not decode as `User`,
`GitHubClient::user` runs `json::decode(&body).unwrap()` (github.rs:86) and
panics instead of returning the `DecodeError` the spec prescribes. -/
theorem user_ok_malformed_body_panics :
    user ⟨200, Json.obj []⟩ = UserResult.panicked := rfl

/-- C3 counterexample: for a client whose configured provider base URL is
`https://example.com`, the token-exchange request is not the one built from
the base URL — the code hardcodes `https://github.com`. -/
theorem tokenExchangeRequest_ignores_base_url :
    tokenExchangeRequest ⟨"https://example.com", "id", "sec"⟩ "abc" ≠
      specTokenExchangeRequest ⟨"https://example.com", "id", "sec"⟩ "abc" := by
  decide

/-- C3 (amended): for every client and authorization code, the
token-exchange request is a POST to the fixed URL
`https://github.com/login/oauth/access_token` with `client_id`,
`client_secret` and `code` query parameters taken from the client's
credentials and the supplied code; the configured base URL is not used. -/
theorem tokenExchangeRequest_fixed_host :
    ∀ (c : GitHubClient) (code : String),
      (tokenExchangeRequest c code).method = Method.POST ∧
      (tokenExchangeRequest c code).url =
        "https://github.com/login/oauth/access_token?client_id=" ++
          c.client_id ++ "&client_secret=" ++ c.client_secret ++ "&code=" ++
          code :=
  fun _ _ => ⟨rfl, rfl⟩

/-- C4: `has_scope` is an exact-token membership test over the scope string
split on commas; `"user:email,read:org"` contains `"user:email"` and
`"user:emailx"` does not. -/
theorem has_scope_exact_token :
    (∀ (msg : AuthOk) (grant : String),
      msg.has_scope grant = true ↔ grant.data ∈ splitComma msg.scope.data) ∧
    AuthOk.has_scope ⟨"t", "user:email,read:org", "b"⟩ "user:email" = true ∧
    AuthOk.has_scope ⟨"t", "user:emailx", "b"⟩ "user:email" = false := by
  refine ⟨?_, by decide, by decide⟩
  intro msg grant
  unfold AuthOk.has_scope
  rw [List.any_eq_true]
  constructor
  · rintro ⟨p, hp, he⟩
    rw [beq_iff_eq] at he
    exact he ▸ hp
  · intro hm
    exact ⟨grant.data, hm, by simp⟩

/-- C5: on a success status whose body does not decode as the granted-token
shape, `authenticate` decodes the body as the provider-error shape; on
success it fails with `AuthProviderError` carrying that body's fields, and
on failure it fails with `DecodeError`. -/
theorem authenticate_provider_error_fallback :
    ∀ (rep : Response), isSuccess rep.status = true →
      decodeAuthOk rep.body = none →
      ((∀ e : AuthErr, decodeAuthErr rep.body = some e →
          authenticate rep = Except.error (Error.AuthProviderError e)) ∧
        (decodeAuthErr rep.body = none →
          authenticate rep = Except.error Error.DecodeError)) := by
  intro rep hs hd
  constructor
  · intro e he
    simp [authenticate, hs, hd, he]
  · intro he
    simp [authenticate, hs, hd, he]

/-- Witness for C5: a 200 response whose body is a provider error object
fails with `AuthProviderError` carrying its three fields, and a 204
response with a `null` body fails with `DecodeError`. -/
theorem authenticate_provider_error_fallback_witness :
    authenticate ⟨200, Json.obj [("error", Json.str "bad_verification_code"),
      ("error_description", Json.str "code expired"),
      ("error_uri", Json.str "https://docs.example")]⟩ =
      Except.error (Error.AuthProviderError
        ⟨"bad_verification_code", "code expired", "https://docs.example"⟩) ∧
    authenticate ⟨204, Json.null⟩ = Except.error Error.DecodeError :=
  ⟨(authenticate_provider_error_fallback
      ⟨200, Json.obj [("error", Json.str "bad_verification_code"),
        ("error_description", Json.str "code expired"),
        ("error_uri", Json.str "https://docs.example")]⟩
      (by decide) (by rfl)).1
      ⟨"bad_verification_code", "code expired", "https://docs.example"⟩
      (by rfl),
   (authenticate_provider_error_fallback ⟨204, Json.null⟩
      (by decide) (by rfl)).2 (by rfl)⟩

/-- C6: on a non-success HTTP status, `authenticate` fails with `HTTP`
carrying exactly that status, whatever the body holds — no decode of the
body is attempted. -/
theorem authenticate_http_error :
    ∀ (status : Nat) (body : Json), isSuccess status = false →
      authenticate ⟨status, body⟩ = Except.error (Error.HTTP status) := by
  intro s b h
  simp [authenticate, h]

/-- Witness for C6: a 401 response fails with `HTTP 401` even though its
body is a perfectly well-formed grant. -/
theorem authenticate_http_error_witness :
    authenticate ⟨401, Json.obj [("access_token", Json.str "abc"),
      ("scope", Json.str "user:email"), ("token_type", Json.str "bearer")]⟩ =
      Except.error (Error.HTTP 401) :=
  authenticate_http_error 401
    (Json.obj [("access_token", Json.str "abc"),
      ("scope", Json.str "user:email"), ("token_type", Json.str "bearer")])
    (by decide)

/-- C7: when the body decodes as a grant containing the required scope,
`authenticate` returns exactly the grant's `access_token`, unmodified. -/
theorem authenticate_returns_exact_token :
    ∀ (rep : Response) (msg : AuthOk), isSuccess rep.status = true →
      decodeAuthOk rep.body = some msg →
      msg.has_scope "user:email" = true →
      authenticate rep = Except.ok msg.access_token := by
  intro rep msg hs hd hsc
  simp [authenticate, hs, hd, requiredScope, hsc]

/-- Witness for C7: a grant with scopes `"read:org,user:email"` yields its
access token `"xyz"`. -/
theorem authenticate_returns_exact_token_witness :
    authenticate ⟨201, Json.obj [("access_token", Json.str "xyz"),
      ("scope", Json.str "read:org,user:email"),
      ("token_type", Json.str "bearer")]⟩ = Except.ok "xyz" :=
  authenticate_returns_exact_token
    ⟨201, Json.obj [("access_token", Json.str "xyz"),
      ("scope", Json.str "read:org,user:email"),
      ("token_type", Json.str "bearer")]⟩
    ⟨"xyz", "read:org,user:email", "bearer"⟩
    (by decide) (by rfl) (by decide)

/-- C8: on a non-OK status, `user` and `emails` decode the body as an open
string-to-string map and fail with `GitHubAPI` carrying exactly that map;
when the error body does not decode as such a map they fail with
`DecodeError`. -/
theorem api_error_open_map :
    ∀ (rep : Response), rep.status ≠ 200 →
      ((∀ m, decodeStringMap rep.body = some m →
          user rep = UserResult.err (Error.GitHubAPI m) ∧
          emails rep = Except.error (Error.GitHubAPI m)) ∧
        (decodeStringMap rep.body = none →
          user rep = UserResult.err Error.DecodeError ∧
          emails rep = Except.error Error.DecodeError)) := by
  intro rep hns
  constructor
  · intro m hm
    constructor <;> simp [user, emails, hns, hm]
  · intro hm
    constructor <;> simp [user, emails, hns, hm]

/-- Witness for C8: a 404 with body `\x7b"message": "Not Found"\x7d` fails with
`GitHubAPI [("message", "Not Found")]` in both operations, and a 500 whose
body is the number 3 fails with `DecodeError` in both. -/
theorem api_error_open_map_witness :
    (user ⟨404, Json.obj [("message", Json.str "Not Found")]⟩ =
        UserResult.err (Error.GitHubAPI [("message", "Not Found")]) ∧
      emails ⟨404, Json.obj [("message", Json.str "Not Found")]⟩ =
        Except.error (Error.GitHubAPI [("message", "Not Found")])) ∧
    (user ⟨500, Json.num 3⟩ = UserResult.err Error.DecodeError ∧
      emails ⟨500, Json.num 3⟩ = Except.error Error.DecodeError) :=
  ⟨(api_error_open_map ⟨404, Json.obj [("message", Json.str "Not Found")]⟩
      (by decide)).1 [("message", "Not Found")] (by rfl),
   (api_error_open_map ⟨500, Json.num 3⟩ (by decide)).2 (by rfl)⟩

/-- C9: converting a `User` to an account record is a pure function that
sets the account's name to the user's login and its email to the user's
email exactly when present; nothing else of the `User` reaches the
account. -/
theorem accountFromUser_pure_mapping :
    ∀ (u : User), (accountFromUser u).name = u.login ∧
      (accountFromUser u).email = u.email := by
  intro u
  cases he : u.email <;>
    simp [accountFromUser, Account.new, Account.set_name, Account.set_email,
      he]

end GitHub

namespace Sys

/-- C10: whenever its probe command exits unsuccessfully, `hostname` fails
with `IPFailed` — the very error kind `ip` returns on command failure, so
the two probe failures are indistinguishable by error kind. -/
theorem hostname_failure_is_IPFailed :
    ∀ (out : Output), out.success = false →
      hostname out = Except.error BldrError.IPFailed ∧
      ip out = Except.error BldrError.IPFailed := by
  intro out h
  constructor <;> simp [hostname, ip, h]

/-- Witness for C10: a failed command with nonempty stdout makes both
probes fail with `IPFailed`. -/
theorem hostname_failure_is_IPFailed_witness :
    hostname ⟨false, [104, 105]⟩ = Except.error BldrError.IPFailed ∧
    ip ⟨false, [104, 105]⟩ = Except.error BldrError.IPFailed :=
  hostname_failure_is_IPFailed ⟨false, [104, 105]⟩ (by rfl)

end Sys
